import Mathlib

/-!
Shallow embedding of the QuantaraAI repository's market-data scheduler
(`apps/Playgound/QuantaraAI_scheduler/main.py`), the Studio test harness
(`apps/Playgound/Studio/main.py`) and the solana-bonk-educator plugin entry,
together with proofs about the properties stated in the specification.

Modelling conventions:
* A polars numeric cell is modelled by `Val`: an integer-typed or a
  float-typed (double) value.  `pl.col(c).cast(pl.Float64)` is `castF64`;
  floating-point rounding is not modelled (values are exact rationals),
  only the integer/double dtype distinction and the arithmetic structure.
* A polars `DataFrame` of OHLCV rows is a `List OhlcvRecord`.
* Repository/provider I/O is passed in as explicit function arguments; a
  repository write (`repository.update(df, predicate=...)`) is recorded as
  an emitted `Event`, so desired effects and their match predicates are
  observable in the output.
-/

namespace Quantara

/-- A polars numeric cell: integer dtype or Float64 dtype.  Float64 values
are modelled as exact rationals (`ℚ`); only the dtype tag and the value
matter for the specified properties. -/
inductive Val where
  | vi : Int → Val
  | vf : ℚ → Val
deriving DecidableEq, Repr

/-- Numeric value of a cell, regardless of dtype. -/
def Val.toRat : Val → ℚ
  | .vi n => (n : ℚ)
  | .vf q => q

/-- Whether a cell currently has Float64 (double-precision) dtype. -/
def Val.isF64 : Val → Bool
  | .vi _ => false
  | .vf _ => true

/-- `pl.col(c).cast(pl.Float64)` on a single cell. -/
def castF64 (v : Val) : Val := .vf v.toRat

/-- `pl.max_horizontal` on two cells: result dtype is the supertype
(Float64 if either side is Float64, else integer). -/
def vmax : Val → Val → Val
  | .vi a, .vi b => .vi (max a b)
  | a, b => .vf (max a.toRat b.toRat)

/-- `pl.min_horizontal` on two cells. -/
def vmin : Val → Val → Val
  | .vi a, .vi b => .vi (min a b)
  | a, b => .vf (min a.toRat b.toRat)

/-- Addition of two cells (`existing_df["volume"] + new_data_df["volume"]`). -/
def vadd : Val → Val → Val
  | .vi a, .vi b => .vi (a + b)
  | a, b => .vf (a.toRat + b.toRat)

/-- One OHLCV row: timestamp (epoch milliseconds), symbol, and the five
numeric candle fields.  `open` is a Lean keyword, hence the field `open_`. -/
structure OhlcvRecord where
  timestamp : Val
  symbol : String
  open_ : Val
  high : Val
  low : Val
  close : Val
  volume : Val
deriving DecidableEq, Repr

/-- The `with_columns` step of `update_interval_record`: cast `close`,
`high`, `low` and `volume` of a row to Float64.  Note the source does not
cast `open` (nor `timestamp`/`symbol`). -/
def castRow (r : OhlcvRecord) : OhlcvRecord :=
  { r with
    close := castF64 r.close
    high := castF64 r.high
    low := castF64 r.low
    volume := castF64 r.volume }

/-- `update_interval_record(existing_df, new_data_df)` from
`QuantaraAI_scheduler/main.py` lines 215-243: cast close/high/low/volume of
both frames to Float64, then build the merged frame column by column.  The
polars column expressions pair rows positionally, so the embedding zips the
two row lists. -/
def update_interval_record (existing_df new_data_df : List OhlcvRecord) :
    List OhlcvRecord :=
  let e := existing_df.map castRow
  let n := new_data_df.map castRow
  List.zipWith
    (fun er nr =>
      { timestamp := er.timestamp
        symbol := er.symbol
        open_ := er.open_
        high := vmax er.high nr.high
        low := vmin er.low nr.low
        close := nr.close
        volume := vadd er.volume nr.volume })
    e n

/-- `create_new_interval_record(interval_start_time, interval_name, new_data_df)`
from lines 246-264: a frame whose timestamp column is the constant
`interval_start_time.timestamp() * 1000` (a Python float) and whose other
columns are the new frame's columns verbatim.  `interval_start_time` is
modelled as epoch seconds (`ℚ`); `interval_name` is accepted but unused,
exactly as in the source. -/
def create_new_interval_record (interval_start_time : ℚ)
    (interval_name : String) (new_data_df : List OhlcvRecord) :
    List OhlcvRecord :=
  new_data_df.map fun r =>
    { timestamp := .vf (interval_start_time * 1000)
      symbol := r.symbol
      open_ := r.open_
      high := r.high
      low := r.low
      close := r.close
      volume := r.volume }

/-- An indicator row produced by the external `calculate_ta_indicators`:
symbol, timestamp and a bag of derived numeric fields. -/
structure IndicatorRecord where
  timestamp : Val
  symbol : String
  fields : List (String × Val)
deriving DecidableEq, Repr

/-- The match predicate string handed to `repository.update`:
`"s.timestamp == t.timestamp"` or
`"s.timestamp == t.timestamp AND s.symbol == t.symbol"`. -/
inductive Pred where
  | byTs
  | byTsSym
deriving DecidableEq, Repr

/-- An observable effect of the scheduler: a repository upsert (with its
table name, match predicate and row batch) or a logged error message. -/
inductive Event where
  | upsertOhlcv (table : String) (pred : Pred) (rows : List OhlcvRecord)
  | upsertIndicators (table : String) (pred : Pred) (rows : List IndicatorRecord)
  | logError (msg : String)
deriving DecidableEq, Repr

/-- `interval_names = ["raw", "1h", "4h", "1d"]` (line 26). -/
def interval_names : List String := ["raw", "1h", "4h", "1d"]

/-- `COINS` (lines 29-154): the fixed asset universe. -/
def COINS : List String :=
  ["BTC", "ETH", "SOL", "NEIRO", "SUI", "PEPE", "OG", "WIF", "FTT", "BNB",
   "XRP", "SEI", "DOGE", "TAO", "FET", "SANTOS", "WLD", "SHIB", "APT",
   "FTM", "EIGEN", "PEOPLE", "SAGA", "RUNE", "NEAR", "1000SATS", "BONK",
   "FLOKI", "NOT", "DOGS", "1MBABYDOGE", "CFX", "TURBO", "AVAX", "BOME",
   "WING", "LAZIO", "CVC", "ENA", "TRX", "ORDI", "ARB", "HMSTR", "LINK",
   "EUR", "CATI", "BNX", "RENDER", "TON", "TIA", "ADA", "AAVE", "ALPINE",
   "INJ", "ZRO", "ZK", "USTC", "MKR", "LTC", "PORTO", "DIA", "ARKM",
   "PENDLE", "ICP", "ALT", "IO", "FIL", "GALA", "OP", "JUP", "BCH", "STX",
   "ASR", "UNI", "CELO", "BANANA", "W", "POL", "TROY", "LUNC", "ATM",
   "MANTA", "DYDX", "CRV", "STRK", "DOT", "FORTH", "LUNA", "ACH", "CHZ",
   "ATOM", "YGG", "PHB", "AR", "JTO", "LDO", "HBAR", "SUPER", "FIDA",
   "MEME", "CKB", "OMNI", "PYTH", "PSG", "DEGO", "OM", "BEAMX", "BB",
   "EURI", "JASMY", "RAY", "SUN", "PIXEL", "BLUR", "ROSE", "GRT", "TRB",
   "WOO", "IMX", "SSV", "AI"]

/-- `f"ohlcv_{interval_name}"`: the OHLCV table name of a resolution. -/
def ohlcvTable (interval_name : String) : String := "ohlcv_" ++ interval_name

/-- `f"indicators_{interval_name}"`: the indicator table of a resolution. -/
def indicatorsTable (interval_name : String) : String :=
  "indicators_" ++ interval_name

/-- `update_interval_data(repository, interval_name, new_data_df, current_time)`
(lines 189-212).  The repository object is modelled by its table name
`ohlcvTable interval_name` plus the ambient read map `get_by_timestamp`;
`get_interval_start_time` is referenced but not defined in the available
source, so it is taken as an explicit function argument (datetimes are
epoch seconds `ℚ`).  The single `repository.update` call is emitted as an
event with predicate `"s.timestamp == t.timestamp"`. -/
def update_interval_data
    (get_by_timestamp : String → ℚ → Option (List OhlcvRecord))
    (get_interval_start_time : ℚ → String → ℚ)
    (interval_name : String) (new_data_df : List OhlcvRecord)
    (current_time : ℚ) : List Event :=
  let interval_start_time := get_interval_start_time current_time interval_name
  let existing_df :=
    get_by_timestamp (ohlcvTable interval_name) (interval_start_time * 1000)
  let updated_df :=
    match existing_df with
    | some df =>
        if 0 < df.length then update_interval_record df new_data_df
        else create_new_interval_record interval_start_time interval_name new_data_df
    | none => create_new_interval_record interval_start_time interval_name new_data_df
  [Event.upsertOhlcv (ohlcvTable interval_name) Pred.byTs updated_df]

/-- `update_ohlcv_data()` (lines 167-186).  The provider's
`get_current_ohlcv(COINS, interval="30m")` row list is `get_current_ohlcv
COINS "30m"`.  `raw_data[0]` on an empty row list raises `IndexError`,
modelled by `Except.error`; otherwise the raw batch is upserted into
`ohlcv_raw` keyed on timestamp and each coarser resolution is updated.
`current_time = datetime.fromtimestamp(raw_data[0]["timestamp"] // 1000)`
is the floor of the first row's millisecond timestamp over 1000, in epoch
seconds. -/
def update_ohlcv_data
    (get_current_ohlcv : List String → String → List OhlcvRecord)
    (get_by_timestamp : String → ℚ → Option (List OhlcvRecord))
    (get_interval_start_time : ℚ → String → ℚ) :
    Except String (List Event) :=
  match get_current_ohlcv COINS "30m" with
  | [] => .error "IndexError: list index out of range"
  | r0 :: rest =>
    let raw_data := r0 :: rest
    let current_time : ℚ := ((r0.timestamp.toRat / 1000).floor : ℤ)
    .ok (Event.upsertOhlcv (ohlcvTable "raw") Pred.byTs raw_data ::
      (interval_names.drop 1).flatMap fun interval_name =>
        update_interval_data get_by_timestamp get_interval_start_time
          interval_name raw_data current_time)

/-- The (symbol, timestamp) sort order of `df.sort(by=["symbol", "timestamp"])`. -/
def rowLe (a b : OhlcvRecord) : Bool :=
  decide (a.symbol < b.symbol) ||
    (a.symbol == b.symbol && decide (a.timestamp.toRat ≤ b.timestamp.toRat))

/-- Ordered insertion for the sort below. -/
def orderedInsertRow (r : OhlcvRecord) : List OhlcvRecord → List OhlcvRecord
  | [] => [r]
  | x :: xs => if rowLe r x then r :: x :: xs else x :: orderedInsertRow r xs

/-- `df.sort(by=["symbol", "timestamp"])` (line 281), modelled as an
insertion sort over the (symbol, timestamp) order.  Only which rows occur,
grouped per symbol, matters to the properties below, not the particular
sorting algorithm. -/
def sortBySymbolTimestamp (df : List OhlcvRecord) : List OhlcvRecord :=
  df.foldr orderedInsertRow []

/-- First-occurrence deduplication with an accumulator of already seen
strings. -/
def dedupFirst (seen : List String) : List String → List String
  | [] => []
  | x :: xs => if x ∈ seen then dedupFirst seen xs else x :: dedupFirst (x :: seen) xs

/-- `df["symbol"].unique()` (line 283): the distinct symbols of a frame
(the iteration order of polars `unique` is unspecified; theorems below use
only membership). -/
def uniqueSymbols (df : List OhlcvRecord) : List String :=
  dedupFirst [] (df.map (·.symbol))

/-- `df.filter(pl.col("symbol") == symbol)` (line 284). -/
def symbolFrame (df : List OhlcvRecord) (symbol : String) : List OhlcvRecord :=
  df.filter (·.symbol == symbol)

/-- `update_indicators_data()` (lines 267-295).  Repository reads are the
map `get_all` (table name to stored frame); `calculate_ta_indicators` is
external (`libs.internals.indicators`) and passed in as a fallible
function whose raised exception is an `Except.error` message.  For each
resolution with a non-empty table, each distinct symbol's sorted series is
fed to the indicator computation; a success is upserted into the
resolution's indicator table keyed on (timestamp, symbol), a failure is
logged and the loop continues with the next symbol. -/
def update_indicators_data
    (get_all : String → Option (List OhlcvRecord))
    (calculate_ta_indicators : List OhlcvRecord → Except String (List IndicatorRecord)) :
    List Event :=
  interval_names.flatMap fun interval_name =>
    match get_all (ohlcvTable interval_name) with
    | none => []
    | some df =>
      if df.length = 0 then []
      else
        let sorted := sortBySymbolTimestamp df
        (uniqueSymbols sorted).flatMap fun symbol =>
          let symbol_df := symbolFrame sorted symbol
          if symbol_df.length = 0 then []
          else
            match calculate_ta_indicators symbol_df with
            | .ok indicators =>
                [Event.upsertIndicators (indicatorsTable interval_name)
                  Pred.byTsSym indicators]
            | .error e =>
                [Event.logError
                  ("Error calculating indicators for " ++ symbol ++ ": " ++ e)]

/-- The provider interval string `seed()` requests for a resolution:
`"30m"` for `raw`, else the resolution's own name (lines 307-310). -/
def seedInterval (interval_name : String) : String :=
  if interval_name == "raw" then "30m" else interval_name

/-- The history depth `seed()` requests: 1000 rows for `raw`, 100
otherwise (line 315). -/
def seedLimit (interval_name : String) : Nat :=
  if interval_name == "raw" then 1000 else 100

/-- The per-resolution loop of `seed()` (lines 304-324): fetch historical
candles, skip the resolution when no rows come back, otherwise upsert the
batch into the resolution's OHLCV table keyed on timestamp. -/
def seedLoop
    (get_historical_ohlcv : List String → String → Nat → List OhlcvRecord) :
    List Event :=
  interval_names.flatMap fun interval_name =>
    let raw_data :=
      get_historical_ohlcv COINS (seedInterval interval_name)
        (seedLimit interval_name)
    if raw_data.isEmpty then []
    else [Event.upsertOhlcv (ohlcvTable interval_name) Pred.byTs raw_data]

/-- `seed()` (lines 298-326): the per-resolution seeding loop followed by
one indicator recomputation over all resolutions. -/
def seed
    (get_historical_ohlcv : List String → String → Nat → List OhlcvRecord)
    (get_all : String → Option (List OhlcvRecord))
    (calculate_ta_indicators : List OhlcvRecord → Except String (List IndicatorRecord)) :
    List Event :=
  seedLoop get_historical_ohlcv ++
    update_indicators_data get_all calculate_ta_indicators

/-- The three price-data provider implementations selected at module load
(`QuantaraAI_scheduler/main.py` lines 13-19). -/
inductive DataProviderKind where
  | binanceProvider
  | coinPaprikaProvider
  | dummyProvider
deriving DecidableEq, Repr

/-- The import-time provider selection (lines 14-19): `os.environ.get`
yields `none` when `DATA_PROVIDER` is unset; `binance` picks the Binance
provider, `coinpaprika` the CoinPaprika provider, anything else the dummy
provider. -/
def selectDataProvider (env : Option String) : DataProviderKind :=
  if env = some "binance" then .binanceProvider
  else if env = some "coinpaprika" then .coinPaprikaProvider
  else .dummyProvider

/-- A plugin descriptor as instantiated by the Studio harness: the fields
declared on `BasePlugin` subclasses such as `SolanaBonkEducatorPlugin`
(name, description, owner, tool count, avatar URL) plus the `exclude`
flag consulted by the harness. -/
structure PluginDescriptor where
  name : String
  description : String
  owner : String
  tools : List String
  image_url : String
  exclude : Bool
deriving DecidableEq, Repr

/-- The fixed slug list looked up by `test_chat()`
(`Studio/main.py` lines 12-17). -/
def plugin_names : List String :=
  ["wallet", "QuantaraAI", "coin-technical-analyzer",
   "coin-technical-chart-searcher"]

/-- The filtering step of `test_chat()` (`Studio/main.py` line 20):
`plugins = [p for p in plugins if p.exclude is False]`. -/
def filterPlugins (plugins : List PluginDescriptor) : List PluginDescriptor :=
  plugins.filter fun p => p.exclude == false

/-- Whether a batch row matches a target row under a match predicate. -/
def predMatches (p : Pred) (s t : OhlcvRecord) : Bool :=
  match p with
  | .byTs => s.timestamp == t.timestamp
  | .byTsSym => s.timestamp == t.timestamp && s.symbol == t.symbol

/-- Modelled from the spec: the storage repository (`libs.repositories`,
whose implementation is not in the available source tree) applies
`update(df, predicate)` as an upsert keyed by the match predicate — target
rows matched by some batch row are replaced and the whole batch is
written, row identity otherwise untouched. -/
def upsertRows (p : Pred) (target batch : List OhlcvRecord) :
    List OhlcvRecord :=
  target.filter (fun t => !(batch.any fun s => predMatches p s t)) ++ batch

/-- The (timestamp, symbol) identity key of an OHLCV row. -/
def recordKey (r : OhlcvRecord) : Val × String := (r.timestamp, r.symbol)

/-- A table satisfies the uniqueness invariant when no two rows share the
(timestamp, symbol) pair. -/
def keyUnique (rows : List OhlcvRecord) : Prop :=
  (rows.map recordKey).Nodup

/-! ### Sample rows used by concrete witnesses -/

/-- The spec's worked example of an existing bucket row:
open=10, high=12, low=9, volume=100 (close is irrelevant to the merge). -/
def exampleExistingRow : OhlcvRecord :=
  { timestamp := .vi 1700000000000, symbol := "BTC", open_ := .vi 10,
    high := .vi 12, low := .vi 9, close := .vi 10, volume := .vi 100 }

/-- The spec's worked example of a new observation row:
high=13, low=8, close=11, volume=50. -/
def exampleNewRow : OhlcvRecord :=
  { timestamp := .vi 1700001800000, symbol := "ETH", open_ := .vi 11,
    high := .vi 13, low := .vi 8, close := .vi 11, volume := .vi 50 }

/-! ### Interval merge and bucket creation -/

theorem update_interval_record_length (e n : List OhlcvRecord) :
    (update_interval_record e n).length = min e.length n.length := by
  simp [update_interval_record]

/-- C2: merging an existing bucket row with the positionally corresponding
new observation row keeps the existing open, takes the maximum of the
highs, the minimum of the lows, the new close, and the sum of the
volumes. -/
theorem quantara_C2_interval_merge (e n : List OhlcvRecord) (i : Nat)
    (h1 : i < e.length) (h2 : i < n.length)
    (h3 : i < (update_interval_record e n).length) :
    (update_interval_record e n)[i].open_ = e[i].open_ ∧
    (update_interval_record e n)[i].high.toRat = max e[i].high.toRat n[i].high.toRat ∧
    (update_interval_record e n)[i].low.toRat = min e[i].low.toRat n[i].low.toRat ∧
    (update_interval_record e n)[i].close.toRat = n[i].close.toRat ∧
    (update_interval_record e n)[i].volume.toRat = e[i].volume.toRat + n[i].volume.toRat := by
  refine ⟨?_, ?_, ?_, ?_, ?_⟩ <;>
    simp [update_interval_record, castRow, castF64, vmax, vmin, vadd, Val.toRat]

/-- Witness for C2 at the spec's worked example: existing open=10,
high=12, low=9, volume=100 merged with new high=13, low=8, close=11,
volume=50 gives open=10, high=13, low=8, close=11, volume=150. -/
theorem quantara_C2_interval_merge_witness :
    (update_interval_record [exampleExistingRow] [exampleNewRow]).length = 1 ∧
    ((update_interval_record [exampleExistingRow] [exampleNewRow]).get ⟨0, by decide⟩).open_ = Val.vi 10 ∧
    ((update_interval_record [exampleExistingRow] [exampleNewRow]).get ⟨0, by decide⟩).high.toRat = 13 ∧
    ((update_interval_record [exampleExistingRow] [exampleNewRow]).get ⟨0, by decide⟩).low.toRat = 8 ∧
    ((update_interval_record [exampleExistingRow] [exampleNewRow]).get ⟨0, by decide⟩).close.toRat = 11 ∧
    ((update_interval_record [exampleExistingRow] [exampleNewRow]).get ⟨0, by decide⟩).volume.toRat = 150 := by
  have h := quantara_C2_interval_merge [exampleExistingRow] [exampleNewRow] 0
    (by decide) (by decide) (by decide)
  refine ⟨by decide, ?_, ?_, ?_, ?_, ?_⟩
  · exact h.1.trans (by decide)
  · exact h.2.1.trans (by norm_num [exampleExistingRow, exampleNewRow, Val.toRat])
  · exact h.2.2.1.trans (by norm_num [exampleExistingRow, exampleNewRow, Val.toRat])
  · exact h.2.2.2.1.trans (by norm_num [exampleExistingRow, exampleNewRow, Val.toRat])
  · exact h.2.2.2.2.trans (by norm_num [exampleExistingRow, exampleNewRow, Val.toRat])

/-- C3 (counterexample): the `with_columns` normalization step of the
interval merge does not cast `open`: an integer-typed `open` of 10 stays
integer-typed through the cast step and through the whole merge, so not
every numeric field is cast to double precision. -/
theorem quantara_C3_counterexample :
    (castRow exampleExistingRow).open_ = Val.vi 10 ∧
    (castRow exampleExistingRow).open_.isF64 = false ∧
    (castRow exampleExistingRow).high.isF64 = true ∧
    ((update_interval_record [exampleExistingRow] [exampleNewRow]).map
      fun r => r.open_.isF64) = [false] := by
  decide

/-- C3 (amended): in the interval merge, `high`, `low`, `close` and
`volume` of both the existing bucket and the new observation are cast to
double precision before the fields are combined, and the combined fields
carry Float64 dtype; `open` is carried over from the existing bucket
without a cast. -/
theorem quantara_C3_cast_normalization (e n : List OhlcvRecord) (i : Nat)
    (h1 : i < e.length) (h2 : i < n.length)
    (h3 : i < (update_interval_record e n).length) :
    (update_interval_record e n)[i].high = vmax (castF64 e[i].high) (castF64 n[i].high) ∧
    (update_interval_record e n)[i].low = vmin (castF64 e[i].low) (castF64 n[i].low) ∧
    (update_interval_record e n)[i].close = castF64 n[i].close ∧
    (update_interval_record e n)[i].volume = vadd (castF64 e[i].volume) (castF64 n[i].volume) ∧
    (update_interval_record e n)[i].high.isF64 = true ∧
    (update_interval_record e n)[i].low.isF64 = true ∧
    (update_interval_record e n)[i].close.isF64 = true ∧
    (update_interval_record e n)[i].volume.isF64 = true ∧
    (update_interval_record e n)[i].open_ = e[i].open_ := by
  refine ⟨?_, ?_, ?_, ?_, ?_, ?_, ?_, ?_, ?_⟩ <;>
    simp [update_interval_record, castRow, castF64, vmax, vmin, vadd, Val.isF64]

/-- Witness for the amended C3 at the sample rows: combined fields are
Float64, the carried-over `open` is not. -/
theorem quantara_C3_cast_normalization_witness :
    ((update_interval_record [exampleExistingRow] [exampleNewRow]).get ⟨0, by decide⟩).high.isF64 = true ∧
    ((update_interval_record [exampleExistingRow] [exampleNewRow]).get ⟨0, by decide⟩).low.isF64 = true ∧
    ((update_interval_record [exampleExistingRow] [exampleNewRow]).get ⟨0, by decide⟩).close.isF64 = true ∧
    ((update_interval_record [exampleExistingRow] [exampleNewRow]).get ⟨0, by decide⟩).volume.isF64 = true ∧
    ((update_interval_record [exampleExistingRow] [exampleNewRow]).get ⟨0, by decide⟩).open_.isF64 = false := by
  obtain ⟨-, -, -, -, hh, hl, hc, hv, ho⟩ :=
    quantara_C3_cast_normalization [exampleExistingRow] [exampleNewRow] 0
      (by decide) (by decide) (by decide)
  exact ⟨hh, hl, hc, hv, (congrArg Val.isF64 ho).trans (by decide)⟩

/-- C10: the interval merge pairs the two frames by row position, with no
regard to the symbols: row `i` of the result takes its timestamp, symbol
and open from row `i` of the existing frame, its close from row `i` of the
new frame, and combines the `i`-th highs, lows and volumes — no hypothesis
relates the two rows' symbols. -/
theorem quantara_C10_positional_pairing (e n : List OhlcvRecord) (i : Nat)
    (h1 : i < e.length) (h2 : i < n.length)
    (h3 : i < (update_interval_record e n).length) :
    (update_interval_record e n)[i].timestamp = e[i].timestamp ∧
    (update_interval_record e n)[i].symbol = e[i].symbol ∧
    (update_interval_record e n)[i].open_ = e[i].open_ ∧
    (update_interval_record e n)[i].close.toRat = n[i].close.toRat ∧
    (update_interval_record e n)[i].high.toRat = max e[i].high.toRat n[i].high.toRat ∧
    (update_interval_record e n)[i].low.toRat = min e[i].low.toRat n[i].low.toRat ∧
    (update_interval_record e n)[i].volume.toRat = e[i].volume.toRat + n[i].volume.toRat := by
  refine ⟨?_, ?_, ?_, ?_, ?_, ?_, ?_⟩ <;>
    simp [update_interval_record, castRow, castF64, vmax, vmin, vadd, Val.toRat]

/-- Witness for C10 at rows whose symbols disagree (existing row "BTC",
new row "ETH"): the merged row keeps the existing row's symbol and
timestamp while taking the new row's close. -/
theorem quantara_C10_positional_pairing_witness :
    exampleExistingRow.symbol = "BTC" ∧ exampleNewRow.symbol = "ETH" ∧
    ((update_interval_record [exampleExistingRow] [exampleNewRow]).get ⟨0, by decide⟩).symbol = "BTC" ∧
    ((update_interval_record [exampleExistingRow] [exampleNewRow]).get ⟨0, by decide⟩).timestamp = Val.vi 1700000000000 ∧
    ((update_interval_record [exampleExistingRow] [exampleNewRow]).get ⟨0, by decide⟩).close.toRat = 11 := by
  obtain ⟨ht, hs, -, hc, -, -, -⟩ :=
    quantara_C10_positional_pairing [exampleExistingRow] [exampleNewRow] 0
      (by decide) (by decide) (by decide)
  exact ⟨by decide, by decide, hs.trans (by decide), ht.trans (by decide),
    hc.trans (by norm_num [exampleNewRow, Val.toRat])⟩

/-- C4: when the bucket lookup returns no row (no frame, or an empty
frame), the interval update upserts exactly the freshly created record,
whose timestamp is the computed bucket start time (in milliseconds, as a
float) and whose symbol/open/high/low/close/volume are the new
observation's values verbatim. -/
theorem quantara_C4_bucket_creation
    (get_by_timestamp : String → ℚ → Option (List OhlcvRecord))
    (get_interval_start_time : ℚ → String → ℚ)
    (interval_name : String) (new_data_df : List OhlcvRecord)
    (current_time : ℚ)
    (hempty : ∀ df, get_by_timestamp (ohlcvTable interval_name)
        (get_interval_start_time current_time interval_name * 1000) = some df →
        df = []) :
    update_interval_data get_by_timestamp get_interval_start_time
        interval_name new_data_df current_time =
      [Event.upsertOhlcv (ohlcvTable interval_name) Pred.byTs
        (create_new_interval_record
          (get_interval_start_time current_time interval_name)
          interval_name new_data_df)] ∧
    ∀ i (h1 : i < new_data_df.length)
      (h2 : i < (create_new_interval_record
        (get_interval_start_time current_time interval_name)
        interval_name new_data_df).length),
      (create_new_interval_record
          (get_interval_start_time current_time interval_name)
          interval_name new_data_df)[i].timestamp =
        Val.vf (get_interval_start_time current_time interval_name * 1000) ∧
      (create_new_interval_record
          (get_interval_start_time current_time interval_name)
          interval_name new_data_df)[i].symbol = new_data_df[i].symbol ∧
      (create_new_interval_record
          (get_interval_start_time current_time interval_name)
          interval_name new_data_df)[i].open_ = new_data_df[i].open_ ∧
      (create_new_interval_record
          (get_interval_start_time current_time interval_name)
          interval_name new_data_df)[i].high = new_data_df[i].high ∧
      (create_new_interval_record
          (get_interval_start_time current_time interval_name)
          interval_name new_data_df)[i].low = new_data_df[i].low ∧
      (create_new_interval_record
          (get_interval_start_time current_time interval_name)
          interval_name new_data_df)[i].close = new_data_df[i].close ∧
      (create_new_interval_record
          (get_interval_start_time current_time interval_name)
          interval_name new_data_df)[i].volume = new_data_df[i].volume := by
  constructor
  · cases hg : get_by_timestamp (ohlcvTable interval_name)
        (get_interval_start_time current_time interval_name * 1000) with
    | none => simp [update_interval_data, hg]
    | some df =>
        have hdf := hempty df hg
        subst hdf
        simp [update_interval_data, hg]
  · intro i h1 h2
    refine ⟨?_, ?_, ?_, ?_, ?_, ?_, ?_⟩ <;> simp [create_new_interval_record]

/-- Witness for C4: a lookup map with no stored buckets routes a concrete
new observation into a created record with the bucket-start timestamp and
verbatim fields. -/
theorem quantara_C4_bucket_creation_witness :
    update_interval_data (fun _ _ => none) (fun t _ => t) "1h"
        [exampleNewRow] 2 =
      [Event.upsertOhlcv (ohlcvTable "1h") Pred.byTs
        (create_new_interval_record 2 "1h" [exampleNewRow])] ∧
    ((create_new_interval_record 2 "1h" [exampleNewRow]).get ⟨0, by decide⟩).timestamp = Val.vf (2 * 1000) ∧
    ((create_new_interval_record 2 "1h" [exampleNewRow]).get ⟨0, by decide⟩).symbol = "ETH" ∧
    ((create_new_interval_record 2 "1h" [exampleNewRow]).get ⟨0, by decide⟩).close = Val.vi 11 := by
  obtain ⟨hroute, hfields⟩ :=
    quantara_C4_bucket_creation (fun _ _ => none) (fun t _ => t) "1h"
      [exampleNewRow] 2 (by intro df h; cases h)
  obtain ⟨ht, hs, -, -, -, hc, -⟩ := hfields 0 (by decide) (by decide)
  exact ⟨hroute, ht, hs.trans (by decide), hc.trans (by decide)⟩

/-! ### Provider selection, plugin filtering, refresh-path abort -/

/-- C7: provider selection is a total function of the `DATA_PROVIDER`
value: `binance` selects the Binance provider, `coinpaprika` the
CoinPaprika provider, and every other value — unset included — the dummy
provider. -/
theorem quantara_C7_provider_selection :
    selectDataProvider (some "binance") = DataProviderKind.binanceProvider ∧
    selectDataProvider (some "coinpaprika") = DataProviderKind.coinPaprikaProvider ∧
    ∀ env : Option String, env ≠ some "binance" → env ≠ some "coinpaprika" →
      selectDataProvider env = DataProviderKind.dummyProvider := by
  refine ⟨by decide, by decide, ?_⟩
  intro env h1 h2
  simp [selectDataProvider, h1, h2]

/-- Witness for C7 at the unset configuration: `os.environ.get` returning
nothing selects the dummy provider. -/
theorem quantara_C7_provider_selection_witness :
    (none : Option String) ≠ some "binance" ∧
    (none : Option String) ≠ some "coinpaprika" ∧
    selectDataProvider none = DataProviderKind.dummyProvider := by
  exact ⟨by decide, by decide,
    quantara_C7_provider_selection.2.2 none (by decide) (by decide)⟩

/-- C8: the harness's filtering step keeps, in their original relative
order (a sublist of the input), exactly the plugins whose `exclude` flag
is not set. -/
theorem quantara_C8_plugin_filtering (plugins : List PluginDescriptor) :
    (filterPlugins plugins).Sublist plugins ∧
    ∀ p, p ∈ filterPlugins plugins ↔ p ∈ plugins ∧ p.exclude = false := by
  constructor
  · exact List.filter_sublist plugins
  · intro p
    simp [filterPlugins]

/-- Witness for C8 on a concrete two-plugin list where the first plugin is
excluded: exactly the second plugin survives. -/
theorem quantara_C8_plugin_filtering_witness :
    ({ name := "wallet", description := "d", owner := "o", tools := ["t"],
       image_url := "u", exclude := true } : PluginDescriptor) ∈
      [({ name := "wallet", description := "d", owner := "o", tools := ["t"],
          image_url := "u", exclude := true } : PluginDescriptor),
       { name := "QuantaraAI", description := "d", owner := "o", tools := ["t"],
         image_url := "u", exclude := false }] ∧
    ¬ (({ name := "wallet", description := "d", owner := "o", tools := ["t"],
          image_url := "u", exclude := true } : PluginDescriptor) ∈
      filterPlugins
        [({ name := "wallet", description := "d", owner := "o", tools := ["t"],
            image_url := "u", exclude := true } : PluginDescriptor),
         { name := "QuantaraAI", description := "d", owner := "o", tools := ["t"],
           image_url := "u", exclude := false }]) := by
  refine ⟨by decide, ?_⟩
  intro hmem
  have h := (quantara_C8_plugin_filtering
    [({ name := "wallet", description := "d", owner := "o", tools := ["t"],
        image_url := "u", exclude := true } : PluginDescriptor),
     { name := "QuantaraAI", description := "d", owner := "o", tools := ["t"],
       image_url := "u", exclude := false }]).2
    { name := "wallet", description := "d", owner := "o", tools := ["t"],
      image_url := "u", exclude := true }
  have := (h.mp hmem).2
  simp at this

/-- C9: when the provider's current-OHLCV fetch returns an empty row list,
the refresh path fails on the unguarded first-row access before issuing
any upsert: `update_ohlcv_data` yields an error and no event list. -/
theorem quantara_C9_empty_refresh_aborts
    (get_current_ohlcv : List String → String → List OhlcvRecord)
    (get_by_timestamp : String → ℚ → Option (List OhlcvRecord))
    (get_interval_start_time : ℚ → String → ℚ)
    (hempty : get_current_ohlcv COINS "30m" = []) :
    update_ohlcv_data get_current_ohlcv get_by_timestamp
        get_interval_start_time =
      Except.error "IndexError: list index out of range" := by
  simp [update_ohlcv_data, hempty]

/-- Witness for C9 with a provider that returns no rows. -/
theorem quantara_C9_empty_refresh_aborts_witness :
    (fun (_ : List String) (_ : String) => ([] : List OhlcvRecord)) COINS "30m" = [] ∧
    update_ohlcv_data (fun _ _ => []) (fun _ _ => none) (fun t _ => t) =
      Except.error "IndexError: list index out of range" := by
  exact ⟨rfl,
    quantara_C9_empty_refresh_aborts (fun _ _ => []) (fun _ _ => none)
      (fun t _ => t) rfl⟩

/-! ### Helper lemmas on the scheduler's event streams -/

theorem mem_dedupFirst (s : String) :
    ∀ (l seen : List String), s ∈ dedupFirst seen l ↔ s ∈ l ∧ s ∉ seen := by
  intro l
  induction l with
  | nil => intro seen; simp [dedupFirst]
  | cons x xs ih =>
      intro seen
      by_cases hx : x ∈ seen
      · rw [dedupFirst, if_pos hx, ih]
        constructor
        · rintro ⟨h1, h2⟩
          exact ⟨List.mem_cons_of_mem x h1, h2⟩
        · rintro ⟨h1, h2⟩
          rcases List.mem_cons.mp h1 with rfl | h1
          · exact absurd hx h2
          · exact ⟨h1, h2⟩
      · rw [dedupFirst, if_neg hx]
        constructor
        · intro h
          rcases List.mem_cons.mp h with rfl | h
          · exact ⟨List.mem_cons_self s xs, hx⟩
          · obtain ⟨h1, h2⟩ := (ih (x :: seen)).mp h
            refine ⟨List.mem_cons_of_mem x h1, fun hs => h2 (List.mem_cons_of_mem x hs)⟩
        · rintro ⟨h1, h2⟩
          rcases List.mem_cons.mp h1 with rfl | h1
          · exact List.mem_cons_self s _
          · by_cases hsx : s = x
            · subst hsx; exact List.mem_cons_self s _
            · exact List.mem_cons_of_mem x
                ((ih (x :: seen)).mpr ⟨h1, by simp [hsx, h2]⟩)

theorem mem_uniqueSymbols (df : List OhlcvRecord) (s : String) :
    s ∈ uniqueSymbols df ↔ s ∈ df.map (·.symbol) := by
  rw [uniqueSymbols, mem_dedupFirst]
  simp

theorem symbolFrame_length_ne_zero (df : List OhlcvRecord) (s : String)
    (hs : s ∈ uniqueSymbols df) : (symbolFrame df s).length ≠ 0 := by
  rw [mem_uniqueSymbols] at hs
  obtain ⟨r, hr, hrs⟩ := List.mem_map.mp hs
  have : r ∈ symbolFrame df s := by
    rw [symbolFrame, List.mem_filter]
    exact ⟨hr, by simp [hrs]⟩
  intro hlen
  rw [List.length_eq_zero.mp hlen] at this
  cases this

/-- Membership introduction: a symbol whose indicator computation succeeds
contributes its upsert event for its resolution. -/
theorem update_indicators_mem_ok
    (get_all : String → Option (List OhlcvRecord))
    (calcInd : List OhlcvRecord → Except String (List IndicatorRecord))
    (interval_name : String) (df : List OhlcvRecord) (s : String)
    (inds : List IndicatorRecord)
    (hiv : interval_name ∈ interval_names)
    (hg : get_all (ohlcvTable interval_name) = some df)
    (hne : df.length ≠ 0)
    (hs : s ∈ uniqueSymbols (sortBySymbolTimestamp df))
    (hok : calcInd (symbolFrame (sortBySymbolTimestamp df) s) = .ok inds) :
    Event.upsertIndicators (indicatorsTable interval_name) Pred.byTsSym inds ∈
      update_indicators_data get_all calcInd := by
  rw [update_indicators_data, List.mem_flatMap]
  refine ⟨interval_name, hiv, ?_⟩
  rw [hg]
  simp only [if_neg hne]
  rw [List.mem_flatMap]
  refine ⟨s, hs, ?_⟩
  simp only [if_neg (symbolFrame_length_ne_zero _ _ hs), hok]
  exact List.mem_singleton.mpr rfl

/-- Membership introduction: a symbol whose indicator computation fails
contributes a logged error event. -/
theorem update_indicators_mem_err
    (get_all : String → Option (List OhlcvRecord))
    (calcInd : List OhlcvRecord → Except String (List IndicatorRecord))
    (interval_name : String) (df : List OhlcvRecord) (s msg : String)
    (hiv : interval_name ∈ interval_names)
    (hg : get_all (ohlcvTable interval_name) = some df)
    (hne : df.length ≠ 0)
    (hs : s ∈ uniqueSymbols (sortBySymbolTimestamp df))
    (herr : calcInd (symbolFrame (sortBySymbolTimestamp df) s) = .error msg) :
    Event.logError ("Error calculating indicators for " ++ s ++ ": " ++ msg) ∈
      update_indicators_data get_all calcInd := by
  rw [update_indicators_data, List.mem_flatMap]
  refine ⟨interval_name, hiv, ?_⟩
  rw [hg]
  simp only [if_neg hne]
  rw [List.mem_flatMap]
  refine ⟨s, hs, ?_⟩
  simp only [if_neg (symbolFrame_length_ne_zero _ _ hs), herr]
  exact List.mem_singleton.mpr rfl

/-- Shape elimination: every event of `update_indicators_data` is an
indicator upsert keyed on (timestamp, symbol) or a logged error. -/
theorem update_indicators_data_shape
    (get_all : String → Option (List OhlcvRecord))
    (calcInd : List OhlcvRecord → Except String (List IndicatorRecord))
    (ev : Event) (hev : ev ∈ update_indicators_data get_all calcInd) :
    (∃ t rows, ev = Event.upsertIndicators t Pred.byTsSym rows) ∨
      ∃ m, ev = Event.logError m := by
  rw [update_indicators_data, List.mem_flatMap] at hev
  obtain ⟨iv, hiv, hm⟩ := hev
  dsimp only at hm
  split at hm
  · cases hm
  · split at hm
    · cases hm
    · rw [List.mem_flatMap] at hm
      obtain ⟨s, hsm, hm⟩ := hm
      split at hm
      · cases hm
      · split at hm
        · exact Or.inl ⟨_, _, List.mem_singleton.mp hm⟩
        · exact Or.inr ⟨_, List.mem_singleton.mp hm⟩

/-- Characterization of the seeding loop's events. -/
theorem mem_seedLoop_iff
    (get_historical_ohlcv : List String → String → Nat → List OhlcvRecord)
    (ev : Event) :
    ev ∈ seedLoop get_historical_ohlcv ↔
      ∃ iv, iv ∈ interval_names ∧
        get_historical_ohlcv COINS (seedInterval iv) (seedLimit iv) ≠ [] ∧
        ev = Event.upsertOhlcv (ohlcvTable iv) Pred.byTs
          (get_historical_ohlcv COINS (seedInterval iv) (seedLimit iv)) := by
  rw [seedLoop, List.mem_flatMap]
  constructor
  · rintro ⟨iv, hiv, hm⟩
    by_cases hne :
        (get_historical_ohlcv COINS (seedInterval iv) (seedLimit iv)).isEmpty
    · simp only [if_pos hne] at hm; cases hm
    · simp only [if_neg hne] at hm
      exact ⟨iv, hiv, by simpa [List.isEmpty_iff] using hne,
        List.mem_singleton.mp hm⟩
  · rintro ⟨iv, hiv, hne, rfl⟩
    refine ⟨iv, hiv, ?_⟩
    rw [if_neg (fun h => hne (List.isEmpty_iff.mp h))]
    exact List.mem_singleton.mpr rfl

theorem ohlcvTable_injective (a b : String)
    (h : ohlcvTable a = ohlcvTable b) : a = b := by
  have hd := congrArg String.data h
  simp only [ohlcvTable] at hd
  rw [String.data_append, String.data_append] at hd
  exact String.ext (List.append_cancel_left hd)

/-- C5: a resolution whose historical fetch returns no rows during
seeding is skipped — no upsert touches its OHLCV table — while every
resolution with a non-empty fetch still gets its batch upserted, and the
seeding loop is followed by the indicator recomputation. -/
theorem quantara_C5_seed_empty_skip
    (get_historical_ohlcv : List String → String → Nat → List OhlcvRecord)
    (get_all : String → Option (List OhlcvRecord))
    (calcInd : List OhlcvRecord → Except String (List IndicatorRecord))
    (interval_name : String)
    (hempty : get_historical_ohlcv COINS (seedInterval interval_name)
        (seedLimit interval_name) = []) :
    (∀ p rows, Event.upsertOhlcv (ohlcvTable interval_name) p rows ∉
        seed get_historical_ohlcv get_all calcInd) ∧
    (∀ iv2, iv2 ∈ interval_names →
        get_historical_ohlcv COINS (seedInterval iv2) (seedLimit iv2) ≠ [] →
        Event.upsertOhlcv (ohlcvTable iv2) Pred.byTs
            (get_historical_ohlcv COINS (seedInterval iv2) (seedLimit iv2)) ∈
          seed get_historical_ohlcv get_all calcInd) ∧
    seed get_historical_ohlcv get_all calcInd =
      seedLoop get_historical_ohlcv ++
        update_indicators_data get_all calcInd := by
  refine ⟨?_, ?_, rfl⟩
  · intro p rows hmem
    rcases List.mem_append.mp hmem with hloop | hind
    · obtain ⟨iv2, -, hne, heq⟩ := (mem_seedLoop_iff _ _).mp hloop
      have htbl : ohlcvTable interval_name = ohlcvTable iv2 := by
        injection heq with h1 _ _
      have : iv2 = interval_name := (ohlcvTable_injective _ _ htbl).symm
      rw [this] at hne
      exact hne hempty
    · rcases update_indicators_data_shape _ _ _ hind with ⟨t, rws, h⟩ | ⟨m, h⟩ <;>
        cases h
  · intro iv2 hiv2 hne
    exact List.mem_append.mpr (Or.inl ((mem_seedLoop_iff _ _).mpr
      ⟨iv2, hiv2, hne, rfl⟩))

/-- Witness for C5: a provider with history only at the `1h` resolution —
the raw table gets no upsert, the `1h` table gets its batch, indicators
follow the loop. -/
theorem quantara_C5_seed_empty_skip_witness :
    (fun (_ : List String) (interval : String) (_ : Nat) =>
        if interval == "1h" then [exampleNewRow] else ([] : List OhlcvRecord))
      COINS (seedInterval "raw") (seedLimit "raw") = [] ∧
    Event.upsertOhlcv (ohlcvTable "raw") Pred.byTs [exampleNewRow] ∉
      seed (fun _ interval _ => if interval == "1h" then [exampleNewRow] else [])
        (fun _ => none) (fun _ => .ok []) ∧
    Event.upsertOhlcv (ohlcvTable "1h") Pred.byTs [exampleNewRow] ∈
      seed (fun _ interval _ => if interval == "1h" then [exampleNewRow] else [])
        (fun _ => none) (fun _ => .ok []) := by
  obtain ⟨hnone, hsome, -⟩ := quantara_C5_seed_empty_skip
    (fun _ interval _ => if interval == "1h" then [exampleNewRow] else [])
    (fun _ => none) (fun _ => .ok []) "raw" (by decide)
  exact ⟨by decide, hnone Pred.byTs [exampleNewRow],
    by simpa using hsome "1h" (by decide) (by decide)⟩

/-- C6: an indicator-computation failure for one symbol is logged and
skipped: the failing symbol produces a log event, while every symbol of
any resolution whose computation succeeds still has its indicator rows
upserted, and `update_indicators_data` itself never propagates the
failure (it totally evaluates to its event list). -/
theorem quantara_C6_indicator_isolation
    (get_all : String → Option (List OhlcvRecord))
    (calcInd : List OhlcvRecord → Except String (List IndicatorRecord))
    (interval_name : String) (df : List OhlcvRecord) (s msg : String)
    (hiv : interval_name ∈ interval_names)
    (hg : get_all (ohlcvTable interval_name) = some df)
    (hne : df.length ≠ 0)
    (hs : s ∈ uniqueSymbols (sortBySymbolTimestamp df))
    (hfail : calcInd (symbolFrame (sortBySymbolTimestamp df) s) = .error msg) :
    (Event.logError ("Error calculating indicators for " ++ s ++ ": " ++ msg) ∈
        update_indicators_data get_all calcInd) ∧
    ∀ iv2 df2 s2 inds, iv2 ∈ interval_names →
      get_all (ohlcvTable iv2) = some df2 → df2.length ≠ 0 →
      s2 ∈ uniqueSymbols (sortBySymbolTimestamp df2) →
      calcInd (symbolFrame (sortBySymbolTimestamp df2) s2) = .ok inds →
      Event.upsertIndicators (indicatorsTable iv2) Pred.byTsSym inds ∈
        update_indicators_data get_all calcInd := by
  constructor
  · exact update_indicators_mem_err get_all calcInd interval_name df s msg
      hiv hg hne hs hfail
  · intro iv2 df2 s2 inds hiv2 hg2 hne2 hs2 hok
    exact update_indicators_mem_ok get_all calcInd iv2 df2 s2 inds
      hiv2 hg2 hne2 hs2 hok

theorem mem_orderedInsertRow (a r : OhlcvRecord) :
    ∀ l, a ∈ orderedInsertRow r l ↔ a = r ∨ a ∈ l := by
  intro l
  induction l with
  | nil => simp [orderedInsertRow]
  | cons x xs ih =>
      rw [orderedInsertRow]
      by_cases h : rowLe r x
      · rw [if_pos h]
        simp [List.mem_cons]
      · rw [if_neg h]
        simp only [List.mem_cons, ih]
        tauto

theorem mem_sortBySymbolTimestamp (a : OhlcvRecord) (l : List OhlcvRecord) :
    a ∈ sortBySymbolTimestamp l ↔ a ∈ l := by
  induction l with
  | nil => simp [sortBySymbolTimestamp]
  | cons x xs ih =>
      rw [show sortBySymbolTimestamp (x :: xs) =
            orderedInsertRow x (sortBySymbolTimestamp xs) from rfl]
      rw [mem_orderedInsertRow, ih, List.mem_cons]

/-- Witness for C6: with the raw table holding a "BTC" and an "ETH" row
and a computation that fails exactly on the "BTC" series, the error is
logged and the "ETH" series still gets its indicator upsert. -/
theorem quantara_C6_indicator_isolation_witness :
    Event.logError ("Error calculating indicators for " ++ "BTC" ++ ": " ++ "boom") ∈
      update_indicators_data
        (fun t => if t == "ohlcv_raw" then
            some [exampleExistingRow, exampleNewRow] else none)
        (fun l => if l.any (fun r => r.symbol == "BTC") then .error "boom"
          else .ok []) ∧
    Event.upsertIndicators (indicatorsTable "raw") Pred.byTsSym [] ∈
      update_indicators_data
        (fun t => if t == "ohlcv_raw" then
            some [exampleExistingRow, exampleNewRow] else none)
        (fun l => if l.any (fun r => r.symbol == "BTC") then .error "boom"
          else .ok []) := by
  have hmemBTC : exampleExistingRow ∈
      symbolFrame (sortBySymbolTimestamp [exampleExistingRow, exampleNewRow]) "BTC" := by
    rw [symbolFrame, List.mem_filter]
    exact ⟨(mem_sortBySymbolTimestamp _ _).mpr (List.mem_cons_self _ _), by decide⟩
  have hsBTC : "BTC" ∈
      uniqueSymbols (sortBySymbolTimestamp [exampleExistingRow, exampleNewRow]) := by
    rw [mem_uniqueSymbols]
    exact List.mem_map.mpr ⟨exampleExistingRow,
      (mem_sortBySymbolTimestamp _ _).mpr (List.mem_cons_self _ _), rfl⟩
  have hsETH : "ETH" ∈
      uniqueSymbols (sortBySymbolTimestamp [exampleExistingRow, exampleNewRow]) := by
    rw [mem_uniqueSymbols]
    refine List.mem_map.mpr ⟨exampleNewRow, ?_, rfl⟩
    exact (mem_sortBySymbolTimestamp _ _).mpr
      (List.mem_cons_of_mem _ (List.mem_cons_self _ _))
  have hanyBTC : ((symbolFrame (sortBySymbolTimestamp
        [exampleExistingRow, exampleNewRow]) "BTC").any
        fun r => r.symbol == "BTC") = true :=
    List.any_eq_true.mpr ⟨exampleExistingRow, hmemBTC, by decide⟩
  have hanyETH : ((symbolFrame (sortBySymbolTimestamp
        [exampleExistingRow, exampleNewRow]) "ETH").any
        fun r => r.symbol == "BTC") = false := by
    rw [List.any_eq_false]
    intro r hr
    have hsym := (List.mem_filter.mp hr).2
    simp only [beq_iff_eq] at hsym ⊢
    simp [hsym]
  obtain ⟨h1, h2⟩ := quantara_C6_indicator_isolation
    (fun t => if t == "ohlcv_raw" then
        some [exampleExistingRow, exampleNewRow] else none)
    (fun l => if l.any (fun r => r.symbol == "BTC") then .error "boom"
      else .ok [])
    "raw" [exampleExistingRow, exampleNewRow] "BTC" "boom"
    (by decide) (by decide) (by decide) hsBTC (by simp [hanyBTC])
  exact ⟨h1, h2 "raw" [exampleExistingRow, exampleNewRow] "ETH" []
    (by decide) (by decide) (by decide) hsETH (by simp [hanyETH])⟩

/-- Every event of `update_interval_data` is the single OHLCV upsert of
its resolution table, keyed on timestamp alone. -/
theorem update_interval_data_shape
    (get_by_timestamp : String → ℚ → Option (List OhlcvRecord))
    (get_interval_start_time : ℚ → String → ℚ)
    (interval_name : String) (new_data_df : List OhlcvRecord)
    (current_time : ℚ) (ev : Event)
    (h : ev ∈ update_interval_data get_by_timestamp get_interval_start_time
      interval_name new_data_df current_time) :
    ∃ rows, ev = Event.upsertOhlcv (ohlcvTable interval_name) Pred.byTs rows := by
  rw [update_interval_data] at h
  exact ⟨_, List.mem_singleton.mp h⟩

/-- Every OHLCV upsert of a successful refresh cycle is keyed on
timestamp alone. -/
theorem update_ohlcv_data_pred_byTs
    (get_current_ohlcv : List String → String → List OhlcvRecord)
    (get_by_timestamp : String → ℚ → Option (List OhlcvRecord))
    (get_interval_start_time : ℚ → String → ℚ)
    (evs : List Event) (t : String) (p : Pred) (rows : List OhlcvRecord)
    (hok : update_ohlcv_data get_current_ohlcv get_by_timestamp
      get_interval_start_time = .ok evs)
    (hmem : Event.upsertOhlcv t p rows ∈ evs) : p = Pred.byTs := by
  cases hcur : get_current_ohlcv COINS "30m" with
  | nil =>
      rw [update_ohlcv_data, hcur] at hok
      cases hok
  | cons r0 rest =>
      rw [update_ohlcv_data, hcur] at hok
      injection hok with h
      subst h
      rcases List.mem_cons.mp hmem with hhead | htail
      · rw [Event.upsertOhlcv.injEq] at hhead
        exact hhead.2.1
      · obtain ⟨iv, hiv, hm⟩ := List.mem_flatMap.mp htail
        obtain ⟨rows2, heq⟩ := update_interval_data_shape _ _ _ _ _ _ hm
        rw [Event.upsertOhlcv.injEq] at heq
        exact heq.2.1

/-- Modelled from the spec: the timestamp-keyed batch upsert preserves the
per-table invariant that no two rows share a (timestamp, symbol) pair,
provided the incoming batch itself has no duplicate pair. -/
theorem upsertRows_byTs_keyUnique (target batch : List OhlcvRecord)
    (ht : keyUnique target) (hb : keyUnique batch) :
    keyUnique (upsertRows Pred.byTs target batch) := by
  rw [keyUnique, upsertRows, List.map_append, List.nodup_append]
  refine ⟨?_, hb, ?_⟩
  · exact List.Nodup.sublist
      (List.Sublist.map recordKey (List.filter_sublist target)) ht
  · intro k hk1 hk2
    obtain ⟨t, htf, rfl⟩ := List.mem_map.mp hk1
    obtain ⟨b, hbm, hkey⟩ := List.mem_map.mp hk2
    obtain ⟨htm, hcond⟩ := List.mem_filter.mp htf
    have hfalse : (batch.any fun s => predMatches Pred.byTs s t) = false := by
      simpa using hcond
    have hts : b.timestamp = t.timestamp := congrArg Prod.fst hkey
    exact (List.any_eq_false.mp hfalse b hbm) (by simp [predMatches, hts])

/-- C1 (counterexample): updating the non-raw `4h` resolution table goes
through an upsert whose match predicate is timestamp alone — not the
(timestamp, symbol) pair the claim requires for non-raw tables. -/
theorem quantara_C1_counterexample :
    update_interval_data (fun _ _ => none) (fun t _ => t) "4h"
        [exampleExistingRow] 7 =
      [Event.upsertOhlcv (ohlcvTable "4h") Pred.byTs
        (create_new_interval_record 7 "4h" [exampleExistingRow])] ∧
    Pred.byTs ≠ Pred.byTsSym := by
  exact ⟨rfl, by decide⟩

/-- C1 (amended): every OHLCV-table upsert — the raw table and the coarser
resolution tables alike, during seeding and during refresh — is keyed on
timestamp alone; only the indicator-table upserts are keyed on the
(timestamp, symbol) pair; and the timestamp-keyed batch upsert preserves
at-most-one-record-per-(timestamp, symbol) whenever the written batch has
no duplicate pair. -/
theorem quantara_C1_upsert_keys :
    (∀ (hist : List String → String → Nat → List OhlcvRecord)
       (g : String → Option (List OhlcvRecord))
       (c : List OhlcvRecord → Except String (List IndicatorRecord))
       (t : String) (p : Pred) (rows : List OhlcvRecord),
       Event.upsertOhlcv t p rows ∈ seed hist g c → p = Pred.byTs) ∧
    (∀ (cur : List String → String → List OhlcvRecord)
       (gbt : String → ℚ → Option (List OhlcvRecord))
       (gist : ℚ → String → ℚ) (evs : List Event)
       (t : String) (p : Pred) (rows : List OhlcvRecord),
       update_ohlcv_data cur gbt gist = .ok evs →
       Event.upsertOhlcv t p rows ∈ evs → p = Pred.byTs) ∧
    (∀ (g : String → Option (List OhlcvRecord))
       (c : List OhlcvRecord → Except String (List IndicatorRecord))
       (t : String) (p : Pred) (rows : List IndicatorRecord),
       Event.upsertIndicators t p rows ∈ update_indicators_data g c →
       p = Pred.byTsSym) ∧
    (∀ target batch : List OhlcvRecord, keyUnique target → keyUnique batch →
       keyUnique (upsertRows Pred.byTs target batch)) := by
  refine ⟨?_, ?_, ?_, upsertRows_byTs_keyUnique⟩
  · intro hist g c t p rows hmem
    rcases List.mem_append.mp hmem with hloop | hind
    · obtain ⟨iv, -, -, heq⟩ := (mem_seedLoop_iff _ _).mp hloop
      rw [Event.upsertOhlcv.injEq] at heq
      exact heq.2.1
    · rcases update_indicators_data_shape _ _ _ hind with ⟨t2, r2, h⟩ | ⟨m, h⟩ <;>
        cases h
  · intro cur gbt gist evs t p rows hok hmem
    exact update_ohlcv_data_pred_byTs cur gbt gist evs t p rows hok hmem
  · intro g c t p rows hmem
    rcases update_indicators_data_shape _ _ _ hmem with ⟨t2, r2, h⟩ | ⟨m, h⟩
    · rw [Event.upsertIndicators.injEq] at h
      exact h.2.1
    · cases h

/-- Witness for the amended C1: a concrete timestamp-keyed upsert of a
one-row batch into a one-row table preserves (timestamp, symbol)
uniqueness. -/
theorem quantara_C1_upsert_keys_witness :
    keyUnique [exampleExistingRow] ∧ keyUnique [exampleNewRow] ∧
    keyUnique (upsertRows Pred.byTs [exampleExistingRow] [exampleNewRow]) := by
  refine ⟨?_, ?_, ?_⟩
  · rw [keyUnique]; decide
  · rw [keyUnique]; decide
  · exact quantara_C1_upsert_keys.2.2.2 [exampleExistingRow] [exampleNewRow]
      (by rw [keyUnique]; decide) (by rw [keyUnique]; decide)

end Quantara
